import Mathlib

/-!
Verification of the bit-fusion-sdk bridge operation engine.

This file gives a shallow embedding of the core of the bridge engine:
the mint-order batching service (`bridge-canister/src/runtime/service/mint_tx.rs`),
the EVM event-collection tasks (`evm-minter/src/tasks.rs`),
the ICRC2 bridge operation state machine (`icrc2-minter/src/ops.rs`),
and the minter canister access control and burn preconditions
(`icrc2-minter/src/canister.rs`).

Machine integers are modelled as `Nat` (no operation in the verified claims
overflows or relies on wrap-around), byte strings and addresses as `Nat` or
`List Nat`, fallible calls as `Except`, and the asynchronous environment
(RPC clients, signer, ledger) as explicit oracle records passed to each
function.  Hash maps are modelled as association lists in insertion order,
which fixes a deterministic iteration order for the map.
-/

deriving instance DecidableEq for Except

/-- Backoff policy of the task scheduler (`ic_task_scheduler::retry::BackoffPolicy`):
fixed delay or exponential with a multiplier. -/
inductive BackoffPolicy where
  | Fixed (secs : Nat)
  | Exponential (secs : Nat) (multiplier : Nat)
deriving DecidableEq, Repr

/-- Retry policy of the task scheduler (`ic_task_scheduler::retry::RetryPolicy`):
bounded retry count or infinite retries. -/
inductive RetryPolicy where
  | MaxRetries (retries : Nat)
  | Infinite
deriving DecidableEq, Repr

/-- Options attached to a scheduled task (`ic_task_scheduler::task::TaskOptions`). -/
structure TaskOptions where
  backoff_policy : BackoffPolicy
  retry_policy : RetryPolicy
deriving DecidableEq, Repr

/-- Modelled from the spec: default `TaskOptions` of the scheduler crate; the
crate is not among the provided sources, so the concrete default values are
opaque to this development (no verified claim depends on them). -/
def TaskOptions.defaults : TaskOptions :=
  { backoff_policy := .Fixed 0, retry_policy := .MaxRetries 0 }

/-- A task together with its scheduling options
(`ic_task_scheduler::task::ScheduledTask<T>`). -/
structure ScheduledTask (τ : Type) where
  task : τ
  options : TaskOptions
deriving DecidableEq, Repr

/-- Value of `u32::MAX`, used by the sources as an effectively-unbounded retry count. -/
def U32_MAX : Nat := 4294967295

/-- Dynamic EVM chain parameters (`bridge_utils::evm_bridge::EvmParams`):
account nonce, gas price and chain id, as consumed by the outbound
transaction builders in the sources. -/
structure EvmParams where
  nonce : Nat
  gas_price : Nat
  chain_id : Nat
deriving DecidableEq, Repr

namespace MintTx

/-- Modelled from the spec: `SignedOrders` of `bridge_did::order` is not among
the provided sources.  The spec describes it as a batch of signed mint orders
sharing one signature envelope, addressed by a content digest over the
serialized batch.  Each order is modelled as an opaque number in `orders_data`. -/
structure SignedOrders where
  orders_data : List Nat
  signature : List Nat
deriving DecidableEq, Repr

/-- Modelled from the spec: `SignedOrder` of `bridge_did::order` references one
order (by index) inside a signed batch. -/
structure SignedOrder where
  batch : SignedOrders
  idx : Nat
deriving DecidableEq, Repr

/-- Modelled from the spec: the checked constructor `SignedOrder::new` used by
`run`, which treats an out-of-range order index as absent (`run` logs
"Signed order idx not found in batch." and skips the operation). -/
def SignedOrder.new (b : SignedOrders) (i : Nat) : Option SignedOrder :=
  if i < b.orders_data.length then some ⟨b, i⟩ else none

/-- Counterpart of `SignedOrder::into_inner`: the underlying batch. -/
def SignedOrder.into_inner (o : SignedOrder) : SignedOrders := o.batch

/-- Error type `bridge_did::error::Error` restricted to the variants used by
`mint_tx.rs` (the error crate itself is not among the provided sources). -/
inductive Error where
  | Initialization (msg : String)
  | EvmRequestFailed (msg : String)
  | FailedToProgress (msg : String)
deriving DecidableEq, Repr

/-- `MintOrderBatchInfo` from `mint_tx.rs`: a signed batch of mint orders and
the set of `(OperationId, OrderIdx)` pairs related to it.  The `HashSet` is
modelled as a duplicate-free list in insertion order. -/
structure MintOrderBatchInfo where
  orders_batch : SignedOrders
  related_operations : List (Nat × Nat)
deriving DecidableEq, Repr

/-- Set-semantics insertion into the `related_operations` list: a pair already
present is not inserted again (model of `HashSet::insert`). -/
def insertRelated (x : Nat × Nat) (s : List (Nat × Nat)) : List (Nat × Nat) :=
  if x ∈ s then s else s ++ [x]

/-- Model of the `orders_to_send.entry(digest).or_insert_with(..)` update in
`push_operation`: if an entry with the digest exists, the operation pair is
added to its related set (keeping the stored batch); otherwise a fresh entry
holding the pushed batch is appended. -/
def entryInsert {K : Type} [DecidableEq K]
    (pending : List (K × MintOrderBatchInfo)) (digest : K)
    (batch : SignedOrders) (op : Nat × Nat) : List (K × MintOrderBatchInfo) :=
  match pending with
  | [] => [(digest, ⟨batch, [op]⟩)]
  | (k, info) :: rest =>
    if k = digest then
      (k, { info with related_operations := insertRelated op info.related_operations }) :: rest
    else
      (k, info) :: entryInsert rest digest batch op

/-- `SendMintTxService::push_operation`: looks up the signed order of the
operation via the handler, computes the batch digest and inserts the
`(operation id, order index)` pair into the pending entry keyed by that
digest.  The digest function over batches is abstracted as `digestF` into an
arbitrary key type; the content-addressing property of `SignedOrders::digest`
corresponds to `digestF` being injective. -/
def push_operation {K : Type} [DecidableEq K] (digestF : SignedOrders → K)
    (get_signed_orders : Nat → Option SignedOrder)
    (pending : List (K × MintOrderBatchInfo)) (op_id : Nat) :
    Except Error (List (K × MintOrderBatchInfo)) :=
  match get_signed_orders op_id with
  | none =>
      .error (.FailedToProgress
        ("Signed order not found for operation " ++ toString op_id ++ "."))
  | some order =>
      let order_idx := order.idx
      let orders_batch := order.into_inner
      let digest := digestF orders_batch
      .ok (entryInsert pending digest orders_batch (op_id, order_idx))

/-- The outbound batch-mint transaction built by `run` from the EVM parameters,
the sender and bridge-contract addresses and the signed batch, with the r, s,
v fields filled in after signing (`bft_events::batch_mint_transaction`). -/
structure Transaction where
  sender : Nat
  contract : Nat
  nonce : Nat
  gas_price : Nat
  orders_data : List Nat
  signature : List Nat
  r : Nat
  s : Nat
  v : Nat
deriving DecidableEq, Repr

/-- Environment of one `run()` call: results of the configuration reads, the
signer calls and the raw-transaction submission, in the order the code
performs them. -/
structure RunEnv where
  get_signer : Except Error Unit
  get_address : Except Error Nat
  bft_bridge_contract : Option Nat
  get_evm_params : Except Error EvmParams
  sign_transaction : Except Error (Nat × Nat × Nat)
  send_raw_transaction : Except String Nat
deriving DecidableEq, Repr

/-- Find the entry for a digest in the pending map (model of `HashMap` lookup). -/
def findEntry {K : Type} [DecidableEq K] :
    List (K × MintOrderBatchInfo) → K → Option MintOrderBatchInfo
  | [], _ => none
  | (k, info) :: rest, d => if k = d then some info else findEntry rest d

/-- Remove the entry for a digest from the pending map (model of `HashMap::remove`). -/
def removeKey {K : Type} [DecidableEq K] :
    List (K × MintOrderBatchInfo) → K → List (K × MintOrderBatchInfo)
  | [], _ => []
  | (k, info) :: rest, d => if k = d then rest else (k, info) :: removeKey rest d

/-- Straight-line fallible prefix of `run()` up to and including the raw
transaction submission: signer lookup, sender address, bridge contract
address, EVM parameters, transaction signing and submission, each failing
exactly as the corresponding `?`/`ok_or`/`map_err` in the source. -/
def runSend (env : RunEnv) (batch_info : MintOrderBatchInfo) :
    Except Error (Transaction × Nat) :=
  match env.get_signer, env.get_address, env.bft_bridge_contract,
        env.get_evm_params, env.sign_transaction with
  | .error e, _, _, _, _ => .error e
  | _, .error e, _, _, _ => .error e
  | _, _, none, _, _ =>
      .error (.Initialization "Singing service failed to get BftBridge address")
  | _, _, _, .error e, _ => .error e
  | _, _, _, _, .error e => .error e
  | .ok _, .ok sender, some bridge_contract, .ok evm_params, .ok rsv =>
    let tx : Transaction :=
      { sender := sender
        contract := bridge_contract
        nonce := evm_params.nonce
        gas_price := evm_params.gas_price
        orders_data := batch_info.orders_batch.orders_data
        signature := batch_info.orders_batch.signature
        r := rsv.1, s := rsv.2.1, v := rsv.2.2 }
    match env.send_raw_transaction with
    | .error e =>
        .error (.EvmRequestFailed ("failed to send batch mint tx to EVM: " ++ e))
    | .ok tx_hash => .ok (tx, tx_hash)

/-- Observable outcome of one `run()` call: the returned result, the
pending-batch map afterwards, the outbound transactions actually submitted,
and the `mint_tx_sent` notifications issued (operation id, the signed order
slice handed to it, transaction hash). -/
structure RunResult (K : Type) where
  result : Except Error Unit
  orders_to_send : List (K × MintOrderBatchInfo)
  sent_txs : List Transaction
  notified : List (Nat × SignedOrder × Nat)
deriving DecidableEq, Repr

/-- `SendMintTxService::run`: takes the first pending digest (the iteration
order of the map is modelled as insertion order), builds, signs and submits
one batch-mint transaction; on success removes the entry and notifies every
related operation whose order index is valid in the batch; on any failure the
pending map is left unchanged. -/
def run {K : Type} [DecidableEq K] (env : RunEnv)
    (pending : List (K × MintOrderBatchInfo)) : RunResult K :=
  match pending.head? with
  | none => ⟨.ok (), pending, [], []⟩
  | some (digest, batch_info) =>
    match runSend env batch_info with
    | .error e => ⟨.error e, pending, [], []⟩
    | .ok (tx, tx_hash) =>
      let sent_batch_info := (findEntry pending digest).getD batch_info
      let remaining := removeKey pending digest
      let notified := sent_batch_info.related_operations.filterMap
        (fun p => (SignedOrder.new sent_batch_info.orders_batch p.2).map
          (fun o => (p.1, o, tx_hash)))
      ⟨.ok (), remaining, [tx], notified⟩

/-- Digest selected by the next `run()` call: the head of the pending map in
its (deterministic, insertion-order) iteration order. -/
def chosen_digest {K : Type} (pending : List (K × MintOrderBatchInfo)) : Option K :=
  pending.head?.map Prod.fst

end MintTx

namespace EvmTasks

/-- Bridge side of a log or task (`minter_contract_utils::BridgeSide`): the
crate is not among the provided sources; `evm-minter/src/tasks.rs` only copies
and compares values of this type, so a two-sided enumeration suffices. -/
inductive BridgeSide where
  | base
  | wrapped
deriving DecidableEq, Repr

/-- Raw log handed to the event decoders (`ethers_core::abi::RawLog`):
topics and data payload. -/
structure RawLog where
  topics : List Nat
  data : List Nat
deriving DecidableEq, Repr

/-- A fetched EVM log (`ethers_core::types::Log`) restricted to the fields
`collect_evm_events` consumes: the optional block number (absent while the
block is not finalized) plus the topics and data fed to the decoders. -/
structure Log where
  block_number : Option Nat
  topics : List Nat
  data : List Nat
deriving DecidableEq, Repr

/-- The `RawLog` built from a log in `task_by_log`. -/
def Log.raw (l : Log) : RawLog := ⟨l.topics, l.data⟩

/-- Modelled from the spec: decoded payload of a *Burnt* event
(`minter_contract_utils::bft_bridge_api::BurntEventData`); its fields are not
used by the claims about `evm-minter/src/tasks.rs`, so it is kept opaque. -/
structure BurntEventData where
  payload : Nat
deriving DecidableEq, Repr

/-- Modelled from the spec: decoded payload of a *Minted* event
(`minter_contract_utils::bft_bridge_api::MintedEventData`), kept opaque. -/
structure MintedEventData where
  payload : Nat
deriving DecidableEq, Repr

/-- The task enumeration of `evm-minter/src/tasks.rs`. -/
inductive BridgeTask where
  | InitEvmState (side : BridgeSide)
  | CollectEvmEvents (side : BridgeSide)
  | PrepareMintOrder (data : BurntEventData) (side : BridgeSide)
  | RemoveMintOrder (data : MintedEventData)
deriving DecidableEq, Repr

/-- `BridgeTask::task_by_log`: tries to decode the log as a Burnt event and
schedules a `PrepareMintOrder` task, otherwise tries a Minted event and
schedules a `RemoveMintOrder` task, otherwise drops the log (`None`).  The
scheduled tasks carry a fixed 5-second backoff and a `u32::MAX` retry bound.
The two decoders live in `minter_contract_utils` (not among the provided
sources) and are taken as parameters. -/
def task_by_log (decode_burnt : RawLog → Except String BurntEventData)
    (decode_minted : RawLog → Except String MintedEventData)
    (log : Log) (sender_side : BridgeSide) : Option (ScheduledTask BridgeTask) :=
  let raw_log := log.raw
  let options : TaskOptions := ⟨.Fixed 5, .MaxRetries U32_MAX⟩
  match decode_burnt raw_log with
  | .ok burnt_event_data =>
      some ⟨.PrepareMintOrder burnt_event_data sender_side, options⟩
  | .error _ =>
    match decode_minted raw_log with
    | .ok mint_event_data => some ⟨.RemoveMintOrder mint_event_data, options⟩
    | .error _ => none

/-- The `logs.iter().take_while(|l| l.block_number.is_some()).last()` step of
`collect_evm_events`: the last log of the leading run of logs that already
carry a block number. -/
def last_confirmed (logs : List Log) : Option Log :=
  (logs.takeWhile (fun l => l.block_number.isSome)).getLast?

/-- The next-block pointer stored by `collect_evm_events`: one past the block
of the last confirmed log of the leading confirmed run, or the previous value
when that run is empty. -/
def next_block_after (logs : List Log) (prev : Nat) : Nat :=
  match last_confirmed logs with
  | some last_log => (last_log.block_number.getD 0) + 1
  | none => prev

/-- Block numbers of the leading confirmed run of logs. -/
def confirmed_run_blocks (logs : List Log) : List Nat :=
  (logs.takeWhile (fun l => l.block_number.isSome)).filterMap (fun l => l.block_number)

/-- `BridgeTask::collect_evm_events` after the EVM info has been read: given
the result of the `get_logs` RPC call, either propagates the RPC failure or
returns the new next-block pointer together with the tasks scheduled for the
classifiable logs (`filter_map(task_by_log)`); decode failures never fail the
run. -/
def collect_evm_events (decode_burnt : RawLog → Except String BurntEventData)
    (decode_minted : RawLog → Except String MintedEventData)
    (side : BridgeSide) (get_logs_result : Except String (List Log))
    (prev_next_block : Nat) :
    Except String (Nat × List (ScheduledTask BridgeTask)) :=
  match get_logs_result with
  | .error e => .error e
  | .ok logs =>
      .ok (next_block_after logs prev_next_block,
           logs.filterMap (fun l => task_by_log decode_burnt decode_minted l side))

end EvmTasks

namespace Icrc

/-- Modelled from the spec: operation identifier
(`bridge_did::op_id::OperationId`, not among the provided sources).  The spec
describes it as a wallet/user key together with a per-bridge nonce; the code
only reads `.nonce()`. -/
structure OperationId where
  wallet : Nat
  nonce : Nat
deriving DecidableEq, Repr

/-- Auto-approval parameters carried by a burn request
(`bridge_did::reason::ApproveAfterMint`, fields as used in `ops.rs`). -/
structure ApproveAfterMint where
  approve_spender : Nat
  approve_amount : Nat
deriving DecidableEq, Repr

/-- Modelled from the spec: an ICRC2 burn request
(`bridge_did::reason::Icrc2Burn`, not among the provided sources); fields are
those read by `ops.rs`.  Principals and EVM addresses are modelled as `Nat`. -/
structure Icrc2Burn where
  sender : Nat
  amount : Nat
  from_subaccount : Option (List Nat)
  icrc2_token_principal : Nat
  recipient_address : Nat
  erc20_token_address : Nat
  fee_payer : Option Nat
  approve_after_mint : Option ApproveAfterMint
deriving DecidableEq, Repr

/-- Mint order as constructed by `prepare_mint_order` in `ops.rs`
(`bridge_did::order::MintOrder`): sender and token ids, recipient, amount,
nonce, chain ids, fixed-width name/symbol, decimals, auto-approval data and
fee payer. -/
structure MintOrder where
  amount : Nat
  sender : Nat
  src_token : Nat
  recipient : Nat
  dst_token : Nat
  nonce : Nat
  sender_chain_id : Nat
  recipient_chain_id : Nat
  name : List Nat
  symbol : List Nat
  decimals : Nat
  approve_spender : Nat
  approve_amount : Nat
  fee_payer : Nat
deriving DecidableEq, Repr

/-- A signed mint order (`bridge_did::order::SignedMintOrder`), opaque bytes. -/
abbrev SignedMintOrder := Nat

/-- Decoded payload of a wrapped-token *Minted* event
(`bridge_utils::bft_events::MintedEventData`), fields as used in `ops.rs`. -/
structure MintedEventData where
  sender_id : List Nat
  from_token : List Nat
  recipient : Nat
  amount : Nat
  nonce : Nat
deriving DecidableEq, Repr

/-- Decoded payload of a wrapped-token *Burnt* event
(`bridge_utils::bft_events::BurntEventData`), fields as used in `ops.rs` and
`evm-minter/src/tasks.rs`: sender and token addresses, amount, recipient and
destination-token id encodings, operation nonce, token metadata. -/
structure BurntEventData where
  sender : Nat
  amount : Nat
  from_erc20 : Nat
  recipient_id : List Nat
  to_token : List Nat
  operation_id : Nat
  name : List Nat
  symbol : List Nat
  decimals : Nat
deriving DecidableEq, Repr

/-- The ICRC bridge operation state machine of `icrc2-minter/src/ops.rs`
(enum `IcrcBridgeOp`). -/
inductive IcrcBridgeOp where
  | BurnIcrc2Tokens (burn : Icrc2Burn)
  | SignMintOrder (order : MintOrder)
  | SendMintTransaction (dst_address : Nat) (order : SignedMintOrder)
  | ConfirmMint (dst_address : Nat) (order : SignedMintOrder) (tx_hash : Nat)
  | WrappedTokenMintConfirmed (event : MintedEventData)
  | MintIcrcTokens (event : BurntEventData)
  | IcrcMintConfirmed (src_address : Nat) (icrc_tx_id : Nat)
deriving DecidableEq, Repr

/-- `IcrcBridgeOp::is_complete`: exactly the two confirmed variants are
terminal. -/
def IcrcBridgeOp.is_complete : IcrcBridgeOp → Bool
  | .BurnIcrc2Tokens _ => false
  | .SignMintOrder _ => false
  | .SendMintTransaction _ _ => false
  | .ConfirmMint _ _ _ => false
  | .WrappedTokenMintConfirmed _ => true
  | .MintIcrcTokens _ => false
  | .IcrcMintConfirmed _ _ => true

/-- The burn record stored between the ledger burn and the mint-order signing
(`BurntIcrc2Data`, defined at the bottom of `ops.rs`). -/
structure BurntIcrc2Data where
  sender : Nat
  amount : Nat
  src_token : Nat
  recipient_address : Nat
  erc20_token_address : Nat
  operation_id : Nat
  name : List Nat
  symbol : List Nat
  decimals : Nat
  fee_payer : Option Nat
  approve_after_mint : Option ApproveAfterMint
deriving DecidableEq, Repr

/-- Modelled from the spec: deposit-side phases of the stored operation state
(`DepositOperationState`, referenced by `ops.rs` but defined in a module not
among the provided sources); the variants and their payloads follow the spec
state machine and their constructions in `ops.rs`. -/
inductive DepositOperationState where
  | Scheduled (reason : Icrc2Burn)
  | Icrc2Burned (data : BurntIcrc2Data)
  | MintOrderSigned (token_id : Nat) (amount : Nat) (signed_mint_order : SignedMintOrder)
  | MintOrderSent (token_id : Nat) (amount : Nat) (signed_mint_order : SignedMintOrder) (tx_id : Nat)
  | Minted (token_id : Nat) (amount : Nat) (tx_id : Nat)
deriving DecidableEq, Repr

/-- Modelled from the spec: withdrawal-side phases of the stored operation
state (`WithdrawalOperationState`), variants as used in `ops.rs` and the spec
state machine. -/
inductive WithdrawalOperationState where
  | Scheduled (event : BurntEventData)
  | Transferred (token : Nat) (recipient : Nat) (amount : Nat) (tx_id : Nat)
  | RefundScheduled (data : BurntIcrc2Data)
  | RefundMintOrderSigned (token_id : Nat) (amount : Nat) (signed_mint_order : SignedMintOrder)
  | RefundMintOrderSent (token_id : Nat) (amount : Nat) (signed_mint_order : SignedMintOrder) (tx_id : Nat)
  | RefundMinted (token_id : Nat) (amount : Nat) (tx_id : Nat)
deriving DecidableEq, Repr

/-- Modelled from the spec: the stored operation state, tagged by family
(`OperationState`). -/
inductive OperationState where
  | Deposit (s : DepositOperationState)
  | Withdrawal (s : WithdrawalOperationState)
deriving DecidableEq, Repr

/-- Modelled from the spec: the task enumeration referenced by the task
functions in `ops.rs` (`CreateMintOrder`, `SendMintTransaction`,
`MintIcrc2Tokens`, `BurnIcrc2Tokens`, `RemoveMintOrder`); the defining module
is not among the provided sources. -/
inductive IcrcTask where
  | CreateMintOrder (operation_id : OperationId)
  | SendMintTransaction (operation_id : OperationId)
  | MintIcrc2Tokens (operation_id : OperationId)
  | BurnIcrc2Tokens (operation_id : OperationId)
  | RemoveMintOrder (event : MintedEventData)
deriving DecidableEq, Repr

/-- Rejection codes of inter-canister calls (`ic_cdk RejectionCode`). -/
inductive RejectionCode where
  | NoError
  | SysFatal
  | SysTransient
  | DestinationInvalid
  | CanisterReject
  | CanisterMethodError
  | Unknown
deriving DecidableEq, Repr

/-- ICRC1 ledger transfer errors (`TransferError` of the ICRC1 standard), the
variant set matched by `mint_icrc2`. -/
inductive TransferError where
  | BadFee (expected_fee : Nat)
  | BadBurn (min_burn_amount : Nat)
  | InsufficientFunds (balance : Nat)
  | TooOld
  | CreatedInFuture (ledger_time : Nat)
  | Duplicate (duplicate_of : Nat)
  | TemporarilyUnavailable
  | GenericError (error_code : Nat) (message : String)
deriving DecidableEq, Repr

/-- Modelled from the spec: errors of the ICRC ledger client
(`icrc_client IcrcCanisterError`, not among the provided sources): a ledger
transfer error or an inter-canister call rejection. -/
inductive IcrcCanisterError where
  | TransferFailed (e : TransferError)
  | CanisterError (code : RejectionCode) (msg : String)
deriving DecidableEq, Repr

/-- The transient-error test performed by the or-pattern of the first error arm
of `mint_icrc2`: ledger `TooOld`, `CreatedInFuture`, `TemporarilyUnavailable`
and `GenericError` failures plus `SysTransient` call rejections are retried. -/
def IcrcCanisterError.is_transient : IcrcCanisterError → Bool
  | .TransferFailed .TooOld => true
  | .TransferFailed (.CreatedInFuture _) => true
  | .TransferFailed .TemporarilyUnavailable => true
  | .TransferFailed (.GenericError _ _) => true
  | .CanisterError .SysTransient _ => true
  | _ => false

/-- Modelled from the spec: display string of an `IcrcCanisterError`, used when
the error is converted into `SchedulerError::TaskExecutionFailed(e.to_string())`
(the Display implementations are not among the provided sources; the claims
only depend on the conversion being applied, not on the exact text). -/
def IcrcCanisterError.describe : IcrcCanisterError → String
  | .TransferFailed _ => "icrc ledger transfer failed"
  | .CanisterError _ msg => msg

/-- Successful ledger mint response used by `mint_icrc2` (`Success`). -/
structure MintSuccess where
  tx_id : Nat
  amount : Nat
deriving DecidableEq, Repr

/-- The `Vec<u8> -> [u8; N]` conversion `try_into().unwrap_or_default()` used
for the refund order metadata: a list of the wrong length becomes the zero
array. -/
def fit_exact (n : Nat) (l : List Nat) : List Nat :=
  if l.length = n then l else List.replicate n 0

/-- `IcrcBridgeOp::mint_icrc2` (the withdrawal ledger-mint task) as a function
of its external inputs: the `Id256` decoders for token and recipient (defined
outside the provided sources), the result of the `icrc2::mint` ledger call,
the operation id, and the stored operation state.  It returns the task result
(`SchedulerError::TaskExecutionFailed` modelled as a `String` error), the
updated stored state for this operation and the tasks appended to the
scheduler. -/
def mint_icrc2 (decode_token decode_recipient : List Nat → Option Nat)
    (mint_result : Except IcrcCanisterError MintSuccess)
    (operation_id : OperationId) (operation_state : Option OperationState) :
    Except String Unit × Option OperationState × List (ScheduledTask IcrcTask) :=
  match operation_state with
  | some (.Withdrawal (.Scheduled burnt_event)) =>
    match decode_token burnt_event.to_token with
    | none =>
        (.error "Failed to decode token id256 from erc20 minted event",
         some (.Withdrawal (.Scheduled burnt_event)), [])
    | some to_token =>
      match decode_recipient burnt_event.recipient_id with
      | none =>
          (.error "Failed to decode recipient id from minted event",
           some (.Withdrawal (.Scheduled burnt_event)), [])
      | some recipient =>
        match mint_result with
        | .ok succ =>
            (.ok (),
             some (.Withdrawal (.Transferred to_token recipient succ.amount succ.tx_id)),
             [])
        | .error e =>
          if e.is_transient then
            (.error e.describe, some (.Withdrawal (.Scheduled burnt_event)), [])
          else
            let name := fit_exact 32 burnt_event.name
            let symbol := fit_exact 16 burnt_event.symbol
            let burnt_data : BurntIcrc2Data :=
              { sender := recipient
                amount := burnt_event.amount
                src_token := to_token
                recipient_address := burnt_event.sender
                erc20_token_address := burnt_event.from_erc20
                operation_id := operation_id.nonce
                name := name
                symbol := symbol
                decimals := burnt_event.decimals
                fee_payer := none
                approve_after_mint := none }
            (.ok (),
             some (.Withdrawal (.RefundScheduled burnt_data)),
             [⟨.CreateMintOrder operation_id, ⟨.Exponential 1 4, .Infinite⟩⟩])
  | other => (.ok (), other, [])

/-- Modelled from the spec: the `IC_CHAIN_ID` constant used as the sender chain
id of ledger-side mint orders (its defining module is not among the provided
sources; no claim depends on the value). -/
def IC_CHAIN_ID : Nat := 355113

/-- Modelled from the spec: `Id256::from` for a principal, an injective
encoding of a ledger principal into a 256-bit id, modelled as the identity on
the `Nat` model of principals. -/
def principal_to_id256 (p : Nat) : Nat := p

/-- Environment of one `prepare_mint_order` call: results of the EVM parameter
read, the signer lookup, the signing of the encoded order, and the EVM
parameter refresh performed before scheduling the mint transaction. -/
structure PrepareEnv where
  get_evm_params : Except String EvmParams
  get_signer : Except String Unit
  encode_and_sign : MintOrder → Except String SignedMintOrder
  update_evm_params : Except String Unit

/-- `IcrcBridgeOp::prepare_mint_order` as a function of its environment, the
operation id and the stored operation state.  Returns the task result, the
updated stored state and the tasks appended to the scheduler.  Mirrors the
source: a wrong stored state is ignored (`Ok`), the order is built from the
burn record, signed, stored as `MintOrderSigned`/`RefundMintOrderSigned`, and
only when the fee payer is present and non-zero the EVM params are refreshed
and a `SendMintTransaction` task is appended; a refresh failure aborts with
the signed state already stored and no task appended. -/
def prepare_mint_order_core (env : PrepareEnv) (operation_id : OperationId)
    (st : Option OperationState) (burnt_data : BurntIcrc2Data)
    (is_deposit : Bool) :
    Except String Unit × Option OperationState × List (ScheduledTask IcrcTask) :=
  match env.get_evm_params with
  | .error _ => (.error "no evm parameters set", st, [])
  | .ok evm_params =>
    let sender_chain_id := IC_CHAIN_ID
    let recipient_chain_id := evm_params.chain_id
    let sender := principal_to_id256 burnt_data.sender
    let src_token := principal_to_id256 burnt_data.src_token
    let nonce := burnt_data.operation_id
    let fee_payer := burnt_data.fee_payer.getD 0
    let should_send_mint_tx : Bool := decide (fee_payer ≠ 0)
    let approve_spender :=
      (burnt_data.approve_after_mint.map (fun a => a.approve_spender)).getD 0
    let approve_amount :=
      (burnt_data.approve_after_mint.map (fun a => a.approve_amount)).getD 0
    let mint_order : MintOrder :=
      { amount := burnt_data.amount
        sender := sender
        src_token := src_token
        recipient := burnt_data.recipient_address
        dst_token := burnt_data.erc20_token_address
        nonce := nonce
        sender_chain_id := sender_chain_id
        recipient_chain_id := recipient_chain_id
        name := burnt_data.name
        symbol := burnt_data.symbol
        decimals := burnt_data.decimals
        approve_spender := approve_spender
        approve_amount := approve_amount
        fee_payer := fee_payer }
    match env.get_signer with
    | .error e => (.error e, st, [])
    | .ok _ =>
      match env.encode_and_sign mint_order with
      | .error e => (.error e, st, [])
      | .ok signed_mint_order =>
        let new_state : OperationState :=
          if is_deposit then
            .Deposit (.MintOrderSigned src_token mint_order.amount signed_mint_order)
          else
            .Withdrawal (.RefundMintOrderSigned src_token mint_order.amount signed_mint_order)
        if should_send_mint_tx then
          match env.update_evm_params with
          | .error e => (.error e, some new_state, [])
          | .ok _ =>
              (.ok (), some new_state,
               [⟨.SendMintTransaction operation_id, TaskOptions.defaults⟩])
        else (.ok (), some new_state, [])

/-- The fallible prefix is factored into `prepare_mint_order_core`; this
dispatcher mirrors the stored-state match at the top of the source function
(a wrong stored state is ignored with `Ok`). -/
def prepare_mint_order (env : PrepareEnv) (operation_id : OperationId)
    (operation_state : Option OperationState) :
    Except String Unit × Option OperationState × List (ScheduledTask IcrcTask) :=
  match operation_state with
  | some (.Deposit (.Icrc2Burned burnt_data)) =>
      prepare_mint_order_core env operation_id
        (some (.Deposit (.Icrc2Burned burnt_data))) burnt_data true
  | some (.Withdrawal (.RefundScheduled burnt_data)) =>
      prepare_mint_order_core env operation_id
        (some (.Withdrawal (.RefundScheduled burnt_data))) burnt_data false
  | other => (.ok (), other, [])

/-- The mint order `prepare_mint_order` builds from a burn record and the EVM
parameters (used to state what gets signed). -/
def mint_order_of (d : BurntIcrc2Data) (params : EvmParams) : MintOrder :=
  { amount := d.amount
    sender := principal_to_id256 d.sender
    src_token := principal_to_id256 d.src_token
    recipient := d.recipient_address
    dst_token := d.erc20_token_address
    nonce := d.operation_id
    sender_chain_id := IC_CHAIN_ID
    recipient_chain_id := params.chain_id
    name := d.name
    symbol := d.symbol
    decimals := d.decimals
    approve_spender := (d.approve_after_mint.map (fun a => a.approve_spender)).getD 0
    approve_amount := (d.approve_after_mint.map (fun a => a.approve_amount)).getD 0
    fee_payer := d.fee_payer.getD 0 }

/-- The stored state a `prepare_mint_order` task starts from, by family:
`Icrc2Burned` for deposits, `RefundScheduled` for refunds. -/
def burned_state (is_deposit : Bool) (d : BurntIcrc2Data) : OperationState :=
  if is_deposit then .Deposit (.Icrc2Burned d) else .Withdrawal (.RefundScheduled d)

/-- The stored state after the mint order is signed, by family:
`MintOrderSigned` for deposits, `RefundMintOrderSigned` for refunds. -/
def signed_state (is_deposit : Bool) (token_id amount : Nat)
    (signed_mint_order : SignedMintOrder) : OperationState :=
  if is_deposit then .Deposit (.MintOrderSigned token_id amount signed_mint_order)
  else .Withdrawal (.RefundMintOrderSigned token_id amount signed_mint_order)

end Icrc

namespace Canister

/-- Modelled from the spec: error type of the minter canister
(`minter_did::error::Error`, not among the provided sources); variants as
used by `canister.rs` and its tests. -/
inductive MError where
  | NotAuthorized
  | AnonymousPrincipal
  | InvalidBurnOperation (msg : String)
  | Internal (msg : String)
deriving DecidableEq, Repr

/-- Principals are modelled as `Nat`, with the anonymous principal
(`Principal::anonymous()`) as the distinguished value `0`. -/
def anonymous_principal : Nat := 0

/-- The owner and EVM principal stored by the canister configuration. -/
structure StateConfig where
  owner : Nat
  evm_principal : Nat
deriving DecidableEq, Repr

/-- `inspect_check_is_owner`: rejects with `NotAuthorized` every principal
other than the stored owner. -/
def inspect_check_is_owner (principal : Nat) (config : StateConfig) :
    Except MError Unit :=
  if config.owner ≠ principal then .error .NotAuthorized else .ok ()

/-- `check_anonymous_principal`: rejects the anonymous principal with
`AnonymousPrincipal`. -/
def check_anonymous_principal (principal : Nat) : Except MError Unit :=
  if principal = anonymous_principal then .error .AnonymousPrincipal else .ok ()

/-- `MinterCanister::set_owner_inspect_message_check`: first the anonymity
check on the new owner, then the owner check on the caller. -/
def set_owner_inspect_message_check (principal owner : Nat)
    (config : StateConfig) : Except MError Unit :=
  match check_anonymous_principal owner with
  | .error e => .error e
  | .ok _ => inspect_check_is_owner principal config

/-- `MinterCanister::set_owner`: runs the inspect check for the caller and the
new owner and on success stores the new owner; on error the configuration is
returned unchanged. -/
def set_owner (caller : Nat) (config : StateConfig) (owner : Nat) :
    Except MError Unit × StateConfig :=
  match set_owner_inspect_message_check caller owner config with
  | .error e => (.error e, config)
  | .ok _ => (.ok (), { config with owner := owner })

/-- `MinterCanister::set_evm_principal_inspect_message_check`: anonymity check
on the new EVM principal, then the owner check on the caller. -/
def set_evm_principal_inspect_message_check (principal evm : Nat)
    (config : StateConfig) : Except MError Unit :=
  match check_anonymous_principal evm with
  | .error e => .error e
  | .ok _ => inspect_check_is_owner principal config

/-- `MinterCanister::set_evm_principal`: runs the inspect check and on success
stores the new EVM principal; on error the configuration is unchanged. -/
def set_evm_principal (caller : Nat) (config : StateConfig) (evm : Nat) :
    Except MError Unit × StateConfig :=
  match set_evm_principal_inspect_message_check caller evm config with
  | .error e => (.error e, config)
  | .ok _ => (.ok (), { config with evm_principal := evm })

/-- Signature approval data attached to a burn request
(`approve_minted_tokens` in `minter_did::reason::Icrc2Burn`), fields as used
by `burn_icrc2`. -/
structure ApprovalData where
  approve_spender : Nat
  approve_amount : Nat
deriving DecidableEq, Repr

/-- Modelled from the spec: the burn request of the minter canister
(`minter_did::reason::Icrc2Burn`, not among the provided sources); fields are
those read by `canister.rs`.  Amounts are `Nat` models of `U256`, addresses
`Nat` models of `H160` with the zero address as `0`. -/
structure Icrc2BurnRequest where
  amount : Nat
  from_subaccount : Option (List Nat)
  icrc2_token_principal : Nat
  recipient_address : Nat
  approve_minted_tokens : Option ApprovalData
deriving DecidableEq, Repr

/-- `inspect_mint_reason`: rejects a zero amount, then a zero recipient
address, with `InvalidBurnOperation`. -/
def inspect_mint_reason (reason : Icrc2BurnRequest) : Except MError Unit :=
  if reason.amount = 0 then
    .error (.InvalidBurnOperation "amount is zero")
  else if reason.recipient_address = 0 then
    .error (.InvalidBurnOperation "recipient address is zero")
  else .ok ()

/-- `MinterCanister::burn_icrc2_inspect_message_check` delegates to
`inspect_mint_reason`. -/
def burn_icrc2_inspect_message_check (reason : Icrc2BurnRequest) :
    Except MError Unit :=
  inspect_mint_reason reason

/-- Token metadata returned by the ICRC1 info query. -/
structure TokenInfo where
  name : String
  symbol : String
  decimals : Nat
deriving DecidableEq, Repr

/-- Modelled from the spec: `order::fit_str_to_array` (fixed-width name/symbol
encoding, defining module not among the provided sources): the first `n`
bytes of the string, zero-padded to width `n`. -/
def fit_str_to_array (n : Nat) (s : String) : List Nat :=
  let l := (s.data.map Char.toNat).take n
  l ++ List.replicate (n - l.length) 0

/-- The burn record of the minter canister crate (`BurntIcrc2Data` of
`icrc2-minter/src/tasks.rs`), fields as constructed in `burn_icrc2`. -/
structure BurntIcrc2DataC where
  sender : Nat
  amount : Nat
  operation_id : Nat
  name : List Nat
  symbol : List Nat
  decimals : Nat
  src_token : Nat
  recipient_address : Nat
  approve_spender : Nat
  approve_amount : Nat
deriving DecidableEq, Repr

/-- Modelled from the spec: the task enumeration of the minter canister crate
(`icrc2-minter/src/tasks.rs::BridgeTask`, not among the provided sources);
variants as referenced by `canister.rs`. -/
inductive CBridgeTask where
  | InitEvmInfo
  | CollectEvmEvents
  | PrepareMintOrder (data : BurntIcrc2DataC) (approve : Bool)
  | RefreshBftBridgeCreationStatus
deriving DecidableEq, Repr

/-- Modelled from the spec: the `TASK_RETRY_DELAY_SECS` constant of the minter
canister crate (its defining module is not among the provided sources; no
claim depends on the value). -/
def TASK_RETRY_DELAY_SECS : Nat := 5

/-- Environment of one `burn_icrc2` call: the caller, the outcome of the
approval-signature check, the token-info query, the ledger burn, and the next
operation nonce handed out by the state. -/
structure BurnEnv where
  caller : Nat
  signature_check_ok : Bool
  token_info : Option TokenInfo
  burn_result : Except MError Unit
  next_nonce : Nat
deriving DecidableEq, Repr

/-- The approval handling of `burn_icrc2`: with an approval attached, a failed
signature check is an `InvalidBurnOperation`; otherwise the spender/amount
pair (or the default pair) is passed through. -/
def approve_args (env : BurnEnv) (reason : Icrc2BurnRequest) :
    Except MError (Nat × Nat) :=
  match reason.approve_minted_tokens with
  | some approval =>
      if env.signature_check_ok then
        .ok (approval.approve_spender, approval.approve_amount)
      else .error (.InvalidBurnOperation "invalid principal signature")
  | none => .ok (0, 0)

/-- `MinterCanister::burn_icrc2` as a function of its environment and the
request.  Returns the result (the operation id on success), the number of
ledger burn calls performed, and the tasks appended to the scheduler.  The
precondition check runs before the approval check, the token-info query, the
ledger burn and the task append, exactly as in the source. -/
def burn_icrc2 (env : BurnEnv) (reason : Icrc2BurnRequest) :
    Except MError Nat × Nat × List (ScheduledTask CBridgeTask) :=
  match burn_icrc2_inspect_message_check reason with
  | .error e => (.error e, 0, [])
  | .ok _ =>
    match approve_args env reason with
    | .error e => (.error e, 0, [])
    | .ok approve_pair =>
      match env.token_info with
      | none => (.error (.InvalidBurnOperation "failed to get token info"), 0, [])
      | some token_info =>
        match env.burn_result with
        | .error e => (.error e, 1, [])
        | .ok _ =>
          let operation_id := env.next_nonce
          let data : BurntIcrc2DataC :=
            { sender := env.caller
              amount := reason.amount
              operation_id := operation_id
              name := fit_str_to_array 32 token_info.name
              symbol := fit_str_to_array 16 token_info.symbol
              decimals := token_info.decimals
              src_token := reason.icrc2_token_principal
              recipient_address := reason.recipient_address
              approve_spender := approve_pair.1
              approve_amount := approve_pair.2 }
          (.ok operation_id, 1,
           [⟨.PrepareMintOrder data true,
             ⟨.Fixed TASK_RETRY_DELAY_SECS, .MaxRetries U32_MAX⟩⟩])

end Canister

/-- C5: for every `IcrcBridgeOp` variant, `is_complete()` returns true exactly
when the variant is terminal: true for `WrappedTokenMintConfirmed` and
`IcrcMintConfirmed`, false for `BurnIcrc2Tokens`, `SignMintOrder`,
`SendMintTransaction`, `ConfirmMint` and `MintIcrcTokens`. -/
theorem c5_is_complete_exactly_terminal :
    (∀ b, (Icrc.IcrcBridgeOp.BurnIcrc2Tokens b).is_complete = false)
    ∧ (∀ o, (Icrc.IcrcBridgeOp.SignMintOrder o).is_complete = false)
    ∧ (∀ a o, (Icrc.IcrcBridgeOp.SendMintTransaction a o).is_complete = false)
    ∧ (∀ a o h, (Icrc.IcrcBridgeOp.ConfirmMint a o h).is_complete = false)
    ∧ (∀ e, (Icrc.IcrcBridgeOp.WrappedTokenMintConfirmed e).is_complete = true)
    ∧ (∀ e, (Icrc.IcrcBridgeOp.MintIcrcTokens e).is_complete = false)
    ∧ (∀ a t, (Icrc.IcrcBridgeOp.IcrcMintConfirmed a t).is_complete = true)
    ∧ (∀ op : Icrc.IcrcBridgeOp, op.is_complete = true ↔
        ((∃ e, op = .WrappedTokenMintConfirmed e)
          ∨ ∃ a t, op = .IcrcMintConfirmed a t)) := by
  refine ⟨fun _ => rfl, fun _ => rfl, fun _ _ => rfl, fun _ _ _ => rfl,
    fun _ => rfl, fun _ => rfl, fun _ _ => rfl, fun op => ?_⟩
  cases op <;> simp [Icrc.IcrcBridgeOp.is_complete]

/-- C8: `burn_icrc2` rejects a zero amount or a zero recipient address with an
`InvalidBurnOperation` error before any ledger burn is performed or any task
is scheduled, and the precondition check passes for every request with
non-zero amount and non-zero recipient. -/
theorem c8_burn_icrc2_preconditions :
    (∀ (env : Canister.BurnEnv) (reason : Canister.Icrc2BurnRequest),
      reason.amount = 0 →
        Canister.burn_icrc2 env reason
          = (.error (.InvalidBurnOperation "amount is zero"), 0, []))
    ∧ (∀ (env : Canister.BurnEnv) (reason : Canister.Icrc2BurnRequest),
      reason.amount ≠ 0 → reason.recipient_address = 0 →
        Canister.burn_icrc2 env reason
          = (.error (.InvalidBurnOperation "recipient address is zero"), 0, []))
    ∧ (∀ reason : Canister.Icrc2BurnRequest,
      reason.amount ≠ 0 → reason.recipient_address ≠ 0 →
        Canister.inspect_mint_reason reason = .ok ()) := by
  refine ⟨fun env reason h0 => ?_, fun env reason h0 h1 => ?_,
    fun reason h0 h1 => ?_⟩
  · simp [Canister.burn_icrc2, Canister.burn_icrc2_inspect_message_check,
      Canister.inspect_mint_reason, h0]
  · simp [Canister.burn_icrc2, Canister.burn_icrc2_inspect_message_check,
      Canister.inspect_mint_reason, h0, h1]
  · simp [Canister.inspect_mint_reason, h0, h1]

/-- Witness for C8 at concrete inputs: a zero-amount request and a
zero-recipient request are rejected without effects, and a well-formed
request passes the precondition check. -/
theorem c8_burn_icrc2_preconditions_witness :
    ((⟨0, none, 5, 9, none⟩ : Canister.Icrc2BurnRequest).amount = 0
      ∧ Canister.burn_icrc2 ⟨1, true, none, .ok (), 7⟩ ⟨0, none, 5, 9, none⟩
          = (.error (.InvalidBurnOperation "amount is zero"), 0, []))
    ∧ ((⟨3, none, 5, 0, none⟩ : Canister.Icrc2BurnRequest).recipient_address = 0
      ∧ Canister.burn_icrc2 ⟨1, true, none, .ok (), 7⟩ ⟨3, none, 5, 0, none⟩
          = (.error (.InvalidBurnOperation "recipient address is zero"), 0, []))
    ∧ Canister.inspect_mint_reason ⟨3, none, 5, 9, none⟩ = .ok () :=
  ⟨⟨rfl, c8_burn_icrc2_preconditions.1 ⟨1, true, none, .ok (), 7⟩
      ⟨0, none, 5, 9, none⟩ rfl⟩,
   ⟨rfl, c8_burn_icrc2_preconditions.2.1 ⟨1, true, none, .ok (), 7⟩
      ⟨3, none, 5, 0, none⟩ (by decide) rfl⟩,
   c8_burn_icrc2_preconditions.2.2 ⟨3, none, 5, 9, none⟩ (by decide) (by decide)⟩

/-- C10 counterexample: with stored owner `1`, a non-owner caller `2` passing
the anonymous principal to `set_owner` receives `AnonymousPrincipal`, not the
`NotAuthorized` the claim promises for every non-owner caller (the anonymity
check runs first). -/
theorem c10_not_authorized_counterexample :
    (2 : Nat) ≠ (⟨1, 3⟩ : Canister.StateConfig).owner
    ∧ (Canister.set_owner 2 ⟨1, 3⟩ Canister.anonymous_principal).1
        = .error .AnonymousPrincipal
    ∧ (Canister.set_owner 2 ⟨1, 3⟩ Canister.anonymous_principal).1
        ≠ .error .NotAuthorized
    ∧ (Canister.set_evm_principal 2 ⟨1, 3⟩ Canister.anonymous_principal).1
        ≠ .error .NotAuthorized := by
  decide

/-- C10 (amended): the anonymity check takes precedence — both setters return
`AnonymousPrincipal` whenever the supplied principal is anonymous, regardless
of the caller; otherwise they return `NotAuthorized` for every caller other
than the stored owner and succeed exactly for the owner; every error leaves
the stored owner and EVM principal unchanged. -/
theorem c10_owner_access_control_amended (caller p : Nat)
    (config : Canister.StateConfig) :
    (p = Canister.anonymous_principal →
      Canister.set_owner caller config p = (.error .AnonymousPrincipal, config)
      ∧ Canister.set_evm_principal caller config p
          = (.error .AnonymousPrincipal, config))
    ∧ (p ≠ Canister.anonymous_principal → caller ≠ config.owner →
      Canister.set_owner caller config p = (.error .NotAuthorized, config)
      ∧ Canister.set_evm_principal caller config p
          = (.error .NotAuthorized, config))
    ∧ (p ≠ Canister.anonymous_principal → caller = config.owner →
      Canister.set_owner caller config p = (.ok (), { config with owner := p })
      ∧ Canister.set_evm_principal caller config p
          = (.ok (), { config with evm_principal := p }))
    ∧ (∀ e, (Canister.set_owner caller config p).1 = .error e →
        (Canister.set_owner caller config p).2 = config)
    ∧ (∀ e, (Canister.set_evm_principal caller config p).1 = .error e →
        (Canister.set_evm_principal caller config p).2 = config) := by
  refine ⟨fun hp => ?_, fun hp hc => ?_, fun hp hc => ?_, fun e he => ?_,
    fun e he => ?_⟩
  · constructor <;>
      simp [Canister.set_owner, Canister.set_evm_principal,
        Canister.set_owner_inspect_message_check,
        Canister.set_evm_principal_inspect_message_check,
        Canister.check_anonymous_principal, hp]
  · constructor <;>
      simp [Canister.set_owner, Canister.set_evm_principal,
        Canister.set_owner_inspect_message_check,
        Canister.set_evm_principal_inspect_message_check,
        Canister.check_anonymous_principal, Canister.inspect_check_is_owner,
        hp, Ne.symm hc]
  · constructor <;>
      simp [Canister.set_owner, Canister.set_evm_principal,
        Canister.set_owner_inspect_message_check,
        Canister.set_evm_principal_inspect_message_check,
        Canister.check_anonymous_principal, Canister.inspect_check_is_owner,
        hp, hc]
  · revert he
    cases h : Canister.set_owner_inspect_message_check caller p config <;>
      simp [Canister.set_owner, h]
  · revert he
    cases h : Canister.set_evm_principal_inspect_message_check caller p config <;>
      simp [Canister.set_evm_principal, h]

/-- Witness for the amended C10 at concrete inputs: the owner succeeds with a
fresh principal, an anonymous principal is rejected as such, and a non-owner
caller is rejected as unauthorized with the state unchanged. -/
theorem c10_owner_access_control_amended_witness :
    ((5 : Nat) ≠ Canister.anonymous_principal
      ∧ Canister.set_owner 1 ⟨1, 2⟩ 5 = (.ok (), ⟨5, 2⟩)
      ∧ Canister.set_evm_principal 1 ⟨1, 2⟩ 5 = (.ok (), ⟨1, 5⟩))
    ∧ Canister.set_owner 4 ⟨1, 2⟩ Canister.anonymous_principal
        = (.error .AnonymousPrincipal, ⟨1, 2⟩)
    ∧ Canister.set_owner 4 ⟨1, 2⟩ 5 = (.error .NotAuthorized, ⟨1, 2⟩) :=
  ⟨⟨by decide,
    ((c10_owner_access_control_amended 1 5 ⟨1, 2⟩).2.2.1 (by decide) rfl).1,
    ((c10_owner_access_control_amended 1 5 ⟨1, 2⟩).2.2.1 (by decide) rfl).2⟩,
   ((c10_owner_access_control_amended 4 Canister.anonymous_principal ⟨1, 2⟩).1 rfl).1,
   ((c10_owner_access_control_amended 4 5 ⟨1, 2⟩).2.1 (by decide) (by decide)).1⟩

/-- C4: when `mint_icrc2` attempts the ledger mint for a withdrawal operation
in `Scheduled` state, a transient ledger error (`TooOld`, `CreatedInFuture`,
`TemporarilyUnavailable`, `GenericError`, or a `SysTransient` rejection)
makes the task return an error with the operation state unchanged and no task
appended, while every other mint error transitions the operation to
`RefundScheduled` with the burn data and appends a refund `CreateMintOrder`
task with infinite retries and exponential backoff, returning success. -/
theorem c4_mint_icrc2_error_policy
    (decT decR : List Nat → Option Nat) (burnt : Icrc.BurntEventData)
    (opId : Icrc.OperationId) (tok rcpt : Nat) (e : Icrc.IcrcCanisterError)
    (ht : decT burnt.to_token = some tok)
    (hr : decR burnt.recipient_id = some rcpt) :
    (e.is_transient = true →
      Icrc.mint_icrc2 decT decR (.error e) opId
          (some (.Withdrawal (.Scheduled burnt)))
        = (.error e.describe, some (.Withdrawal (.Scheduled burnt)), []))
    ∧ (e.is_transient = false →
      Icrc.mint_icrc2 decT decR (.error e) opId
          (some (.Withdrawal (.Scheduled burnt)))
        = (.ok (),
           some (.Withdrawal (.RefundScheduled
             { sender := rcpt
               amount := burnt.amount
               src_token := tok
               recipient_address := burnt.sender
               erc20_token_address := burnt.from_erc20
               operation_id := opId.nonce
               name := Icrc.fit_exact 32 burnt.name
               symbol := Icrc.fit_exact 16 burnt.symbol
               decimals := burnt.decimals
               fee_payer := none
               approve_after_mint := none })),
           [⟨.CreateMintOrder opId, ⟨.Exponential 1 4, .Infinite⟩⟩]))
    ∧ (∀ e' : Icrc.IcrcCanisterError, e'.is_transient = true ↔
        (e' = .TransferFailed .TooOld
          ∨ (∃ t, e' = .TransferFailed (.CreatedInFuture t))
          ∨ e' = .TransferFailed .TemporarilyUnavailable
          ∨ (∃ c m, e' = .TransferFailed (.GenericError c m))
          ∨ (∃ m, e' = .CanisterError .SysTransient m))) := by
  refine ⟨fun htr => ?_, fun htr => ?_, fun e' => ?_⟩
  · simp [Icrc.mint_icrc2, ht, hr, htr]
  · simp [Icrc.mint_icrc2, ht, hr, htr]
  · cases e' with
    | TransferFailed te => cases te <;> simp [Icrc.IcrcCanisterError.is_transient]
    | CanisterError c m => cases c <;> simp [Icrc.IcrcCanisterError.is_transient]

/-- Witness for C4 at concrete inputs: a `TooOld` ledger failure is retried
with the state unchanged, while a `BadFee` failure schedules the refund
mint-order task and stores the refund burn data. -/
theorem c4_mint_icrc2_error_policy_witness :
    ((Icrc.IcrcCanisterError.TransferFailed .TooOld).is_transient = true
      ∧ Icrc.mint_icrc2
          (fun l => if l = [1] then some 10 else none)
          (fun l => if l = [2] then some 20 else none)
          (.error (.TransferFailed .TooOld)) ⟨0, 7⟩
          (some (.Withdrawal (.Scheduled ⟨3, 100, 4, [2], [1], 7, [], [], 8⟩)))
        = (.error (Icrc.IcrcCanisterError.TransferFailed .TooOld).describe,
           some (.Withdrawal (.Scheduled ⟨3, 100, 4, [2], [1], 7, [], [], 8⟩)), []))
    ∧ ((Icrc.IcrcCanisterError.TransferFailed (.BadFee 2)).is_transient = false
      ∧ Icrc.mint_icrc2
          (fun l => if l = [1] then some 10 else none)
          (fun l => if l = [2] then some 20 else none)
          (.error (.TransferFailed (.BadFee 2))) ⟨0, 7⟩
          (some (.Withdrawal (.Scheduled ⟨3, 100, 4, [2], [1], 7, [], [], 8⟩)))
        = (.ok (),
           some (.Withdrawal (.RefundScheduled
             { sender := 20
               amount := 100
               src_token := 10
               recipient_address := 3
               erc20_token_address := 4
               operation_id := 7
               name := Icrc.fit_exact 32 []
               symbol := Icrc.fit_exact 16 []
               decimals := 8
               fee_payer := none
               approve_after_mint := none })),
           [⟨.CreateMintOrder ⟨0, 7⟩, ⟨.Exponential 1 4, .Infinite⟩⟩])) :=
  ⟨⟨rfl,
    (c4_mint_icrc2_error_policy
      (fun l => if l = [1] then some 10 else none)
      (fun l => if l = [2] then some 20 else none)
      ⟨3, 100, 4, [2], [1], 7, [], [], 8⟩ ⟨0, 7⟩ 10 20
      (.TransferFailed .TooOld) (by decide) (by decide)).1 rfl⟩,
   ⟨rfl,
    (c4_mint_icrc2_error_policy
      (fun l => if l = [1] then some 10 else none)
      (fun l => if l = [2] then some 20 else none)
      ⟨3, 100, 4, [2], [1], 7, [], [], 8⟩ ⟨0, 7⟩ 10 20
      (.TransferFailed (.BadFee 2)) (by decide) (by decide)).2.1 rfl⟩⟩

/-- C9 counterexample: with a present, non-zero fee payer but a failing EVM
parameter refresh, `prepare_mint_order` signs and stores the order but
appends no `SendMintTransaction` task and returns an error, refuting the
claimed "if and only if the fee payer is present and non-zero". -/
theorem c9_send_mint_tx_counterexample :
    (⟨1, 100, 2, 3, 4, 7, [], [], 8, some 1, none⟩
        : Icrc.BurntIcrc2Data).fee_payer.getD 0 ≠ 0
    ∧ Icrc.prepare_mint_order
        ⟨.ok ⟨0, 1, 7⟩, .ok (), fun _ => .ok 42, .error "refresh failed"⟩
        ⟨0, 7⟩
        (some (.Deposit (.Icrc2Burned ⟨1, 100, 2, 3, 4, 7, [], [], 8, some 1, none⟩)))
      = (.error "refresh failed", some (.Deposit (.MintOrderSigned 2 100 42)), []) := by
  constructor
  · decide
  · rfl

/-- C9 (amended): when `prepare_mint_order` signs a mint order for a
burned-deposit or refund operation, a follow-up `SendMintTransaction` task is
appended iff the burn data's fee payer is present and non-zero *and* the
subsequent EVM-parameter refresh succeeds; with an absent or zero fee payer
the operation stops at the signed-order state with no refresh attempted and
no task; with a non-zero fee payer and a failing refresh the task errors with
the signed state already stored and no task appended. -/
theorem c9_send_mint_tx_amended
    (env : Icrc.PrepareEnv) (opId : Icrc.OperationId) (d : Icrc.BurntIcrc2Data)
    (is_deposit : Bool) (params : EvmParams)
    (sign : Icrc.MintOrder → Icrc.SignedMintOrder)
    (hp : env.get_evm_params = .ok params)
    (hs : env.get_signer = .ok ())
    (hsig : ∀ o, env.encode_and_sign o = .ok (sign o)) :
    (env.update_evm_params = .ok () →
      ((Icrc.prepare_mint_order env opId (some (Icrc.burned_state is_deposit d))).2.2
          = [⟨.SendMintTransaction opId, TaskOptions.defaults⟩]
        ↔ d.fee_payer.getD 0 ≠ 0))
    ∧ (d.fee_payer.getD 0 = 0 →
      ∃ so, Icrc.prepare_mint_order env opId (some (Icrc.burned_state is_deposit d))
        = (.ok (), some (Icrc.signed_state is_deposit d.src_token d.amount so), []))
    ∧ (∀ msg, env.update_evm_params = .error msg → d.fee_payer.getD 0 ≠ 0 →
      ∃ so, Icrc.prepare_mint_order env opId (some (Icrc.burned_state is_deposit d))
        = (.error msg, some (Icrc.signed_state is_deposit d.src_token d.amount so), []))
    ∧ (env.update_evm_params = .ok () → d.fee_payer.getD 0 ≠ 0 →
      ∃ so, Icrc.prepare_mint_order env opId (some (Icrc.burned_state is_deposit d))
        = (.ok (), some (Icrc.signed_state is_deposit d.src_token d.amount so),
           [⟨.SendMintTransaction opId, TaskOptions.defaults⟩])) := by
  have core : ∀ st : Option Icrc.OperationState,
      Icrc.prepare_mint_order_core env opId st d is_deposit
        = (if d.fee_payer.getD 0 ≠ 0 then
            match env.update_evm_params with
            | .error e =>
                (.error e,
                 some (Icrc.signed_state is_deposit d.src_token d.amount
                   (sign (Icrc.mint_order_of d params))), [])
            | .ok _ =>
                (.ok (),
                 some (Icrc.signed_state is_deposit d.src_token d.amount
                   (sign (Icrc.mint_order_of d params))),
                 [⟨.SendMintTransaction opId, TaskOptions.defaults⟩])
          else
            (.ok (),
             some (Icrc.signed_state is_deposit d.src_token d.amount
               (sign (Icrc.mint_order_of d params))), [])) := by
    intro st
    simp only [Icrc.prepare_mint_order_core, hp, hs, hsig,
      Icrc.principal_to_id256, Icrc.signed_state]
    by_cases hf : d.fee_payer.getD 0 = 0 <;>
      simp [hf, Icrc.mint_order_of, Icrc.principal_to_id256]
  have disp :
      Icrc.prepare_mint_order env opId (some (Icrc.burned_state is_deposit d))
        = Icrc.prepare_mint_order_core env opId
            (some (Icrc.burned_state is_deposit d)) d is_deposit := by
    cases is_deposit <;> simp [Icrc.burned_state, Icrc.prepare_mint_order]
  refine ⟨fun hu => ?_, fun hf => ?_, fun msg hu hf => ?_, fun hu hf => ?_⟩
  · rw [disp, core]
    by_cases hf : d.fee_payer.getD 0 = 0 <;> simp [hf, hu]
  · exact ⟨sign (Icrc.mint_order_of d params), by rw [disp, core]; simp [hf]⟩
  · exact ⟨sign (Icrc.mint_order_of d params), by rw [disp, core]; simp [hf, hu]⟩
  · exact ⟨sign (Icrc.mint_order_of d params), by rw [disp, core]; simp [hf, hu]⟩

/-- Witness for the amended C9 at concrete inputs: with a non-zero fee payer
and a successful EVM-parameter refresh a `SendMintTransaction` task is
appended and the signed order is stored. -/
theorem c9_send_mint_tx_amended_witness :
    ((⟨.ok ⟨0, 1, 7⟩, .ok (), fun o => .ok o.amount, .ok ()⟩
        : Icrc.PrepareEnv).update_evm_params = .ok ()
      ∧ (⟨1, 100, 2, 3, 4, 7, [], [], 8, some 1, none⟩
          : Icrc.BurntIcrc2Data).fee_payer.getD 0 ≠ 0)
    ∧ ∃ so, Icrc.prepare_mint_order
        ⟨.ok ⟨0, 1, 7⟩, .ok (), fun o => .ok o.amount, .ok ()⟩ ⟨0, 7⟩
        (some (Icrc.burned_state true ⟨1, 100, 2, 3, 4, 7, [], [], 8, some 1, none⟩))
      = (.ok (), some (Icrc.signed_state true 2 100 so),
         [⟨.SendMintTransaction ⟨0, 7⟩, TaskOptions.defaults⟩]) :=
  ⟨⟨rfl, by decide⟩,
   (c9_send_mint_tx_amended
      ⟨.ok ⟨0, 1, 7⟩, .ok (), fun o => .ok o.amount, .ok ()⟩ ⟨0, 7⟩
      ⟨1, 100, 2, 3, 4, 7, [], [], 8, some 1, none⟩ true ⟨0, 1, 7⟩
      (fun o => o.amount) rfl rfl (fun _ => rfl)).2.2.2 rfl (by decide)⟩

/-- Helper: the last element of a nonempty chain-sorted list of naturals is a
member and an upper bound of the list. -/
theorem chain_getLast_is_max (l : List Nat) (hne : l ≠ [])
    (hc : List.Chain' (· ≤ ·) l) :
    ∃ b, l.getLast? = some b ∧ b ∈ l ∧ ∀ x ∈ l, x ≤ b := by
  induction l with
  | nil => exact absurd rfl hne
  | cons a t ih =>
    cases t with
    | nil => exact ⟨a, rfl, List.mem_singleton.mpr rfl, by simp⟩
    | cons b t' =>
      obtain ⟨hab, hct⟩ := List.chain'_cons.mp hc
      obtain ⟨c, h1, h2, h3⟩ := ih (by simp) hct
      refine ⟨c, ?_, List.mem_cons_of_mem a h2, ?_⟩
      · rw [List.getLast?_cons_cons]
        exact h1
      · intro x hx
        rcases List.mem_cons.mp hx with rfl | hx'
        · exact le_trans hab (h3 b (List.mem_cons_self b t'))
        · exact h3 x hx'

/-- Helper: prepending to a nonempty list does not change its last element. -/
theorem getLast?_cons_of_ne_nil {α : Type} (a : α) (l : List α) (h : l ≠ []) :
    (a :: l).getLast? = l.getLast? := by
  cases l with
  | nil => exact absurd rfl h
  | cons b t => exact List.getLast?_cons_cons

/-- Helper: on a list of logs that all carry a block number, the last
extracted block number is the block number of the last log. -/
theorem filterMap_blocks_getLast :
    ∀ l : List EvmTasks.Log, (∀ x ∈ l, (x.block_number).isSome = true) →
      (l.filterMap (fun x => x.block_number)).getLast?
        = l.getLast?.map (fun x => (x.block_number).getD 0)
  | [], _ => rfl
  | [a], h => by
      obtain ⟨v, hv⟩ := Option.isSome_iff_exists.mp (h a (by simp))
      simp [hv]
  | a :: b :: t, h => by
      have hrec := filterMap_blocks_getLast (b :: t)
        (fun x hx => h x (List.mem_cons_of_mem a hx))
      obtain ⟨v, hv⟩ := Option.isSome_iff_exists.mp (h a (by simp))
      obtain ⟨w, hw⟩ := Option.isSome_iff_exists.mp (h b (by simp))
      have hsplit : (a :: b :: t).filterMap (fun x => x.block_number)
          = v :: ((b :: t).filterMap (fun x => x.block_number)) := by
        simp [List.filterMap_cons, hv]
      have hne : (b :: t).filterMap (fun x => x.block_number) ≠ [] := by
        simp [List.filterMap_cons, hw]
      rw [hsplit, getLast?_cons_of_ne_nil v _ hne, hrec, List.getLast?_cons_cons]

/-- Helper: the confirmed leading run stops at the first log without a block
number, so everything at or after such a log is ignored. -/
theorem takeWhile_append_none {α : Type} (p : α → Bool) :
    ∀ (l1 : List α) (a : α) (l2 : List α), p a = false →
      (l1 ++ a :: l2).takeWhile p = l1.takeWhile p
  | [], a, l2, ha => by simp [List.takeWhile_cons, ha]
  | x :: t, a, l2, ha => by
      by_cases hx : p x
      · simp only [List.cons_append, List.takeWhile_cons, hx]
        rw [takeWhile_append_none p t a l2 ha]
      · simp [List.takeWhile_cons, hx]

/-- C2: after `collect_evm_events` processes fetched logs, the next-block
pointer is one past the last block of the leading confirmed run — the highest
finalized block of that run when the run is ascending — and is never advanced
past a log lacking a block number: `[block 10 confirmed, block 11 unconfirmed]`
yields pointer 11, and an empty list or a leading unconfirmed log leaves the
pointer unchanged. -/
theorem c2_next_block_pointer :
    (∀ (dB : EvmTasks.RawLog → Except String EvmTasks.BurntEventData)
       (dM : EvmTasks.RawLog → Except String EvmTasks.MintedEventData)
       (side : EvmTasks.BridgeSide) (logs : List EvmTasks.Log) (prev : Nat),
      EvmTasks.collect_evm_events dB dM side (.ok logs) prev
        = .ok (EvmTasks.next_block_after logs prev,
               logs.filterMap (fun l => EvmTasks.task_by_log dB dM l side)))
    ∧ (∀ prev : Nat,
        EvmTasks.next_block_after [⟨some 10, [], []⟩, ⟨none, [], []⟩] prev = 11
        ∧ EvmTasks.next_block_after [⟨some 10, [], []⟩, ⟨none, [], []⟩] prev ≠ 12)
    ∧ (∀ prev : Nat, EvmTasks.next_block_after [] prev = prev)
    ∧ (∀ (l : EvmTasks.Log) (ls : List EvmTasks.Log) (prev : Nat),
        l.block_number = none → EvmTasks.next_block_after (l :: ls) prev = prev)
    ∧ (∀ (logs1 : List EvmTasks.Log) (l : EvmTasks.Log)
         (logs2 : List EvmTasks.Log) (prev : Nat),
        l.block_number = none →
          EvmTasks.next_block_after (logs1 ++ l :: logs2) prev
            = EvmTasks.next_block_after logs1 prev)
    ∧ (∀ (logs : List EvmTasks.Log) (prev : Nat),
        EvmTasks.confirmed_run_blocks logs ≠ [] →
        List.Chain' (· ≤ ·) (EvmTasks.confirmed_run_blocks logs) →
        ∃ b, EvmTasks.next_block_after logs prev = b + 1
          ∧ b ∈ EvmTasks.confirmed_run_blocks logs
          ∧ ∀ x ∈ EvmTasks.confirmed_run_blocks logs, x ≤ b) := by
  refine ⟨fun dB dM side logs prev => rfl,
    fun prev => ⟨rfl, by show (11 : Nat) ≠ 12; decide⟩,
    fun prev => rfl,
    fun l ls prev hl => ?_,
    fun logs1 l logs2 prev hl => ?_,
    fun logs prev hne hc => ?_⟩
  · simp [EvmTasks.next_block_after, EvmTasks.last_confirmed,
      List.takeWhile_cons, hl]
  · have hfalse : (fun x : EvmTasks.Log => x.block_number.isSome) l = false := by
      simp [hl]
    simp only [EvmTasks.next_block_after, EvmTasks.last_confirmed]
    rw [takeWhile_append_none _ logs1 l logs2 hfalse]
  · obtain ⟨b, hlast, hmem, hub⟩ :=
      chain_getLast_is_max (EvmTasks.confirmed_run_blocks logs) hne hc
    refine ⟨b, ?_, hmem, hub⟩
    have hall : ∀ x ∈ logs.takeWhile (fun l => l.block_number.isSome),
        (x.block_number).isSome = true := by
      intro x hx
      simpa using List.mem_takeWhile_imp hx
    have h2 := filterMap_blocks_getLast
      (logs.takeWhile (fun l => l.block_number.isSome)) hall
    rw [EvmTasks.confirmed_run_blocks] at hlast
    rw [h2] at hlast
    obtain ⟨x, hx1, hx2⟩ := Option.map_eq_some'.mp hlast
    simp [EvmTasks.next_block_after, EvmTasks.last_confirmed, hx1, hx2]

/-- Witness for C2 at concrete inputs: the two-log example from the claim, an
unconfirmed leading log, the ignored suffix after an unconfirmed log, and the
highest-block characterization on an ascending confirmed run. -/
theorem c2_next_block_pointer_witness :
    EvmTasks.next_block_after [⟨some 10, [], []⟩, ⟨none, [], []⟩] 5 = 11
    ∧ EvmTasks.next_block_after [] 5 = 5
    ∧ ((⟨none, [], []⟩ : EvmTasks.Log).block_number = none
      ∧ EvmTasks.next_block_after [⟨none, [], []⟩, ⟨some 10, [], []⟩] 5 = 5)
    ∧ (EvmTasks.confirmed_run_blocks [⟨some 3, [], []⟩, ⟨some 10, [], []⟩] ≠ []
      ∧ List.Chain' (· ≤ ·)
          (EvmTasks.confirmed_run_blocks [⟨some 3, [], []⟩, ⟨some 10, [], []⟩])
      ∧ ∃ b, EvmTasks.next_block_after [⟨some 3, [], []⟩, ⟨some 10, [], []⟩] 5
            = b + 1
          ∧ b ∈ EvmTasks.confirmed_run_blocks [⟨some 3, [], []⟩, ⟨some 10, [], []⟩]
          ∧ ∀ x ∈ EvmTasks.confirmed_run_blocks
              [⟨some 3, [], []⟩, ⟨some 10, [], []⟩], x ≤ b) :=
  have hchain : List.Chain' (· ≤ ·)
      (EvmTasks.confirmed_run_blocks [⟨some 3, [], []⟩, ⟨some 10, [], []⟩]) := by
    show List.Chain' (· ≤ ·) [3, 10]
    exact List.chain'_cons.mpr ⟨by norm_num, List.chain'_singleton 10⟩
  ⟨(c2_next_block_pointer.2.1 5).1,
   c2_next_block_pointer.2.2.1 5,
   ⟨rfl, c2_next_block_pointer.2.2.2.1 ⟨none, [], []⟩ [⟨some 10, [], []⟩] 5 rfl⟩,
   ⟨by decide, hchain,
    c2_next_block_pointer.2.2.2.2.2 [⟨some 3, [], []⟩, ⟨some 10, [], []⟩] 5
      (by decide) hchain⟩⟩

/-- C7: a fetched log that decodes as neither a Burnt nor a Minted event is
dropped (`task_by_log` returns `None`) and `collect_evm_events` still
completes successfully, scheduling tasks only for the classifiable logs; an
unclassifiable log never makes the ingestion run return an error. -/
theorem c7_unclassifiable_logs_dropped :
    (∀ (dB : EvmTasks.RawLog → Except String EvmTasks.BurntEventData)
       (dM : EvmTasks.RawLog → Except String EvmTasks.MintedEventData)
       (side : EvmTasks.BridgeSide) (log : EvmTasks.Log) (e1 e2 : String),
      dB log.raw = .error e1 → dM log.raw = .error e2 →
        EvmTasks.task_by_log dB dM log side = none)
    ∧ (∀ (dB : EvmTasks.RawLog → Except String EvmTasks.BurntEventData)
       (dM : EvmTasks.RawLog → Except String EvmTasks.MintedEventData)
       (side : EvmTasks.BridgeSide) (logs : List EvmTasks.Log) (prev : Nat),
      EvmTasks.collect_evm_events dB dM side (.ok logs) prev
        = .ok (EvmTasks.next_block_after logs prev,
               logs.filterMap (fun l => EvmTasks.task_by_log dB dM l side)))
    ∧ (∀ (dB : EvmTasks.RawLog → Except String EvmTasks.BurntEventData)
       (dM : EvmTasks.RawLog → Except String EvmTasks.MintedEventData)
       (side : EvmTasks.BridgeSide) (logs : List EvmTasks.Log)
       (t : ScheduledTask EvmTasks.BridgeTask),
      t ∈ logs.filterMap (fun l => EvmTasks.task_by_log dB dM l side) →
        ∃ l ∈ logs, EvmTasks.task_by_log dB dM l side = some t) := by
  refine ⟨fun dB dM side log e1 e2 h1 h2 => ?_,
    fun dB dM side logs prev => rfl,
    fun dB dM side logs t ht => List.mem_filterMap.mp ht⟩
  simp [EvmTasks.task_by_log, h1, h2]

/-- Witness for C7 at concrete inputs: with decoders that reject everything,
the single log is dropped and collection succeeds with no scheduled task. -/
theorem c7_unclassifiable_logs_dropped_witness :
    ((fun _ : EvmTasks.RawLog =>
        (.error "bad" : Except String EvmTasks.BurntEventData))
          (⟨some 10, [1], [2]⟩ : EvmTasks.Log).raw = .error "bad"
      ∧ EvmTasks.task_by_log
          (fun _ => .error "bad") (fun _ => .error "bad") ⟨some 10, [1], [2]⟩
          .base = none)
    ∧ EvmTasks.collect_evm_events (fun _ => .error "bad") (fun _ => .error "bad")
        .base (.ok [⟨some 10, [1], [2]⟩]) 4
      = .ok (11, []) :=
  ⟨⟨rfl,
    c7_unclassifiable_logs_dropped.1 (fun _ => .error "bad")
      (fun _ => .error "bad") .base ⟨some 10, [1], [2]⟩ "bad" "bad" rfl rfl⟩,
   by
    have h := c7_unclassifiable_logs_dropped.2.1 (fun _ => .error "bad")
      (fun _ => .error "bad") .base [⟨some 10, [1], [2]⟩] 4
    simpa using h⟩

/-- Helper: a successful `runSend` submits a transaction carrying exactly the
orders data of the batch it was given. -/
theorem MintTx.runSend_tx_orders (env : MintTx.RunEnv)
    (info : MintTx.MintOrderBatchInfo) (tx : MintTx.Transaction) (h : Nat)
    (hok : MintTx.runSend env info = .ok (tx, h)) :
    tx.orders_data = info.orders_batch.orders_data := by
  rcases env with ⟨gs, ga, bc, gp, st, srt⟩
  cases gs <;> cases ga <;> cases bc <;> cases gp <;> cases st <;> cases srt <;>
    simp_all [MintTx.runSend]
  obtain ⟨rfl, -⟩ := hok
  rfl

/-- C3: when `run()` fails at the RPC submission of the batch transaction, it
returns an `EvmRequestFailed` error, no transaction is recorded as sent, no
operation is notified, and the pending-batch map is unchanged — the entry for
the chosen digest is still present, so the next `run()` chooses the same
digest again. -/
theorem c3_rpc_failure_retains_batch {K : Type} [DecidableEq K]
    (env : MintTx.RunEnv) (digest : K) (info : MintTx.MintOrderBatchInfo)
    (rest : List (K × MintTx.MintOrderBatchInfo))
    (sender bridge_contract : Nat) (params : EvmParams)
    (rsv : Nat × Nat × Nat) (msg : String)
    (hs : env.get_signer = .ok ())
    (ha : env.get_address = .ok sender)
    (hb : env.bft_bridge_contract = some bridge_contract)
    (hp : env.get_evm_params = .ok params)
    (hsg : env.sign_transaction = .ok rsv)
    (hrpc : env.send_raw_transaction = .error msg) :
    MintTx.run env ((digest, info) :: rest)
      = ⟨.error (.EvmRequestFailed ("failed to send batch mint tx to EVM: " ++ msg)),
         (digest, info) :: rest, [], []⟩
    ∧ MintTx.chosen_digest
        (MintTx.run env ((digest, info) :: rest)).orders_to_send = some digest := by
  have hsend : MintTx.runSend env info
      = .error (.EvmRequestFailed ("failed to send batch mint tx to EVM: " ++ msg)) := by
    simp [MintTx.runSend, hs, ha, hb, hp, hsg, hrpc]
  constructor
  · simp [MintTx.run, hsend]
  · simp [MintTx.run, hsend, MintTx.chosen_digest]

/-- Witness for C3 at concrete inputs: a failing RPC submission leaves the
single pending batch in place and reports `EvmRequestFailed`. -/
theorem c3_rpc_failure_retains_batch_witness :
    ((⟨.ok (), .ok 9, some 8, .ok ⟨0, 1, 7⟩, .ok (1, 2, 3), .error "boom"⟩
        : MintTx.RunEnv).send_raw_transaction = .error "boom")
    ∧ MintTx.run
        (⟨.ok (), .ok 9, some 8, .ok ⟨0, 1, 7⟩, .ok (1, 2, 3), .error "boom"⟩
          : MintTx.RunEnv)
        [((5 : Nat), (⟨⟨[1], [2]⟩, [(1, 0)]⟩ : MintTx.MintOrderBatchInfo))]
      = ⟨.error (.EvmRequestFailed ("failed to send batch mint tx to EVM: " ++ "boom")),
         [(5, ⟨⟨[1], [2]⟩, [(1, 0)]⟩)], [], []⟩
    ∧ MintTx.chosen_digest
        (MintTx.run
          (⟨.ok (), .ok 9, some 8, .ok ⟨0, 1, 7⟩, .ok (1, 2, 3), .error "boom"⟩
            : MintTx.RunEnv)
          [((5 : Nat), (⟨⟨[1], [2]⟩, [(1, 0)]⟩ : MintTx.MintOrderBatchInfo))]).orders_to_send
      = some 5 :=
  ⟨rfl,
   (c3_rpc_failure_retains_batch
      ⟨.ok (), .ok 9, some 8, .ok ⟨0, 1, 7⟩, .ok (1, 2, 3), .error "boom"⟩
      5 ⟨⟨[1], [2]⟩, [(1, 0)]⟩ [] 9 8 ⟨0, 1, 7⟩ (1, 2, 3) "boom"
      rfl rfl rfl rfl rfl rfl).1,
   (c3_rpc_failure_retains_batch
      ⟨.ok (), .ok 9, some 8, .ok ⟨0, 1, 7⟩, .ok (1, 2, 3), .error "boom"⟩
      5 ⟨⟨[1], [2]⟩, [(1, 0)]⟩ [] 9 8 ⟨0, 1, 7⟩ (1, 2, 3) "boom"
      rfl rfl rfl rfl rfl rfl).2⟩

/-- C6: each `run()` call processes at most one pending batch digest — at most
one transaction is sent, it carries the batch of the head (first-inserted)
entry, and at most that head entry is removed — and the digest chosen is a
deterministic function of the pending map (equal maps yield the same
choice). -/
theorem c6_single_digest_deterministic {K : Type} [DecidableEq K]
    (env : MintTx.RunEnv) (pending : List (K × MintTx.MintOrderBatchInfo)) :
    (MintTx.run env pending).sent_txs.length ≤ 1
    ∧ (∀ digest info rest, pending = (digest, info) :: rest →
        ((MintTx.run env pending).orders_to_send = rest
          ∨ (MintTx.run env pending).orders_to_send = pending)
        ∧ ∀ tx ∈ (MintTx.run env pending).sent_txs,
            tx.orders_data = info.orders_batch.orders_data)
    ∧ (∀ pending2 : List (K × MintTx.MintOrderBatchInfo), pending = pending2 →
        MintTx.chosen_digest pending = MintTx.chosen_digest pending2) := by
  refine ⟨?_, ?_, fun p2 h => by rw [h]⟩
  · cases pending with
    | nil => simp [MintTx.run]
    | cons hd rest =>
      obtain ⟨d, i⟩ := hd
      cases hsend : MintTx.runSend env i with
      | error e => simp [MintTx.run, hsend]
      | ok res =>
        obtain ⟨tx, h⟩ := res
        simp [MintTx.run, hsend]
  · intro digest info rest hpend
    subst hpend
    cases hsend : MintTx.runSend env info with
    | error e =>
      refine ⟨Or.inr ?_, fun tx htx => ?_⟩
      · simp [MintTx.run, hsend]
      · simp [MintTx.run, hsend] at htx
    | ok res =>
      obtain ⟨tx, h⟩ := res
      refine ⟨Or.inl ?_, fun tx' htx' => ?_⟩
      · simp [MintTx.run, hsend, MintTx.removeKey]
      · simp [MintTx.run, hsend] at htx'
        rw [htx']
        exact MintTx.runSend_tx_orders env info tx h hsend

/-- Witness for C6 at concrete inputs: a successful run on a single-entry map
sends one transaction carrying that entry's batch, removes the entry, and the
chosen digest is the head digest. -/
theorem c6_single_digest_deterministic_witness :
    ((MintTx.run
        (⟨.ok (), .ok 9, some 8, .ok ⟨0, 1, 7⟩, .ok (1, 2, 3), .ok 99⟩
          : MintTx.RunEnv)
        [((5 : Nat), (⟨⟨[1], [2]⟩, [(1, 0)]⟩ : MintTx.MintOrderBatchInfo))]).sent_txs.length ≤ 1)
    ∧ ((MintTx.run
        (⟨.ok (), .ok 9, some 8, .ok ⟨0, 1, 7⟩, .ok (1, 2, 3), .ok 99⟩
          : MintTx.RunEnv)
        [((5 : Nat), (⟨⟨[1], [2]⟩, [(1, 0)]⟩ : MintTx.MintOrderBatchInfo))]).orders_to_send = []
      ∨ (MintTx.run
        (⟨.ok (), .ok 9, some 8, .ok ⟨0, 1, 7⟩, .ok (1, 2, 3), .ok 99⟩
          : MintTx.RunEnv)
        [((5 : Nat), (⟨⟨[1], [2]⟩, [(1, 0)]⟩ : MintTx.MintOrderBatchInfo))]).orders_to_send
          = [(5, ⟨⟨[1], [2]⟩, [(1, 0)]⟩)])
    ∧ MintTx.chosen_digest [((5 : Nat), (⟨⟨[1], [2]⟩, [(1, 0)]⟩ : MintTx.MintOrderBatchInfo))]
        = MintTx.chosen_digest [((5 : Nat), (⟨⟨[1], [2]⟩, [(1, 0)]⟩ : MintTx.MintOrderBatchInfo))] :=
  ⟨(c6_single_digest_deterministic
      ⟨.ok (), .ok 9, some 8, .ok ⟨0, 1, 7⟩, .ok (1, 2, 3), .ok 99⟩
      [(5, ⟨⟨[1], [2]⟩, [(1, 0)]⟩)]).1,
   ((c6_single_digest_deterministic
      ⟨.ok (), .ok 9, some 8, .ok ⟨0, 1, 7⟩, .ok (1, 2, 3), .ok 99⟩
      [(5, ⟨⟨[1], [2]⟩, [(1, 0)]⟩)]).2.1 5 ⟨⟨[1], [2]⟩, [(1, 0)]⟩ [] rfl).1,
   (c6_single_digest_deterministic
      ⟨.ok (), .ok 9, some 8, .ok ⟨0, 1, 7⟩, .ok (1, 2, 3), .ok 99⟩
      [(5, ⟨⟨[1], [2]⟩, [(1, 0)]⟩)]).2.2 _ rfl⟩

/-- C1: for two distinct operations whose signed orders belong to batches with
the same content digest (the digest being content-addressing, i.e. injective),
`push_operation` for both yields a single pending entry keyed by that digest
holding both operation ids, and a subsequent successful `run()` sends exactly
one outbound transaction, empties the pending map, and notifies both
operations with the same transaction hash. -/
theorem c1_same_digest_one_tx_both_notified {K : Type} [DecidableEq K]
    (digestF : MintTx.SignedOrders → K) (h_inj : Function.Injective digestF)
    (handler : Nat → Option MintTx.SignedOrder)
    (op1 op2 : Nat) (o1 o2 : MintTx.SignedOrder)
    (env : MintTx.RunEnv) (sender bridge_contract : Nat) (params : EvmParams)
    (rsv : Nat × Nat × Nat) (tx_hash : Nat)
    (h_ne : op1 ≠ op2)
    (h1 : handler op1 = some o1)
    (h2 : handler op2 = some o2)
    (hv1 : o1.idx < o1.batch.orders_data.length)
    (hv2 : o2.idx < o2.batch.orders_data.length)
    (hdig : digestF o1.batch = digestF o2.batch)
    (hs : env.get_signer = .ok ())
    (ha : env.get_address = .ok sender)
    (hb : env.bft_bridge_contract = some bridge_contract)
    (hp : env.get_evm_params = .ok params)
    (hsg : env.sign_transaction = .ok rsv)
    (hrpc : env.send_raw_transaction = .ok tx_hash) :
    MintTx.push_operation digestF handler [] op1
      = .ok [(digestF o1.batch, ⟨o1.batch, [(op1, o1.idx)]⟩)]
    ∧ MintTx.push_operation digestF handler
        [(digestF o1.batch, ⟨o1.batch, [(op1, o1.idx)]⟩)] op2
      = .ok [(digestF o1.batch, ⟨o1.batch, [(op1, o1.idx), (op2, o2.idx)]⟩)]
    ∧ (MintTx.run env
        [(digestF o1.batch, ⟨o1.batch, [(op1, o1.idx), (op2, o2.idx)]⟩)]).result
      = .ok ()
    ∧ (MintTx.run env
        [(digestF o1.batch, ⟨o1.batch, [(op1, o1.idx), (op2, o2.idx)]⟩)]).sent_txs.length
      = 1
    ∧ (MintTx.run env
        [(digestF o1.batch, ⟨o1.batch, [(op1, o1.idx), (op2, o2.idx)]⟩)]).orders_to_send
      = []
    ∧ (MintTx.run env
        [(digestF o1.batch, ⟨o1.batch, [(op1, o1.idx), (op2, o2.idx)]⟩)]).notified
      = [(op1, ⟨o1.batch, o1.idx⟩, tx_hash), (op2, ⟨o1.batch, o2.idx⟩, tx_hash)] := by
  have hbatch : o1.batch = o2.batch := h_inj hdig
  have hv2' : o2.idx < o1.batch.orders_data.length := by rw [hbatch]; exact hv2
  have hdig' : digestF o2.batch = digestF o1.batch := hdig.symm
  obtain ⟨tx, hsend⟩ : ∃ tx, MintTx.runSend env
      ⟨o1.batch, [(op1, o1.idx), (op2, o2.idx)]⟩ = .ok (tx, tx_hash) :=
    ⟨⟨sender, bridge_contract, params.nonce, params.gas_price,
       o1.batch.orders_data, o1.batch.signature, rsv.1, rsv.2.1, rsv.2.2⟩,
     by simp [MintTx.runSend, hs, ha, hb, hp, hsg, hrpc]⟩
  refine ⟨?_, ?_, ?_, ?_, ?_, ?_⟩
  · simp [MintTx.push_operation, h1, MintTx.SignedOrder.into_inner,
      MintTx.entryInsert]
  · simp [MintTx.push_operation, h2, MintTx.SignedOrder.into_inner,
      MintTx.entryInsert, hdig', MintTx.insertRelated, Ne.symm h_ne]
  · simp [MintTx.run, hsend]
  · simp [MintTx.run, hsend]
  · simp [MintTx.run, hsend, MintTx.removeKey]
  · simp [MintTx.run, hsend, MintTx.findEntry, MintTx.SignedOrder.new,
      hv1, hv2']

/-- Witness for C1 at concrete inputs: two operations sharing one signed
batch (and hence one digest) end up in a single pending entry; the successful
run sends one transaction and notifies both with the same hash. -/
theorem c1_same_digest_one_tx_both_notified_witness :
    ((1 : Nat) ≠ 2
      ∧ Function.Injective (fun b : MintTx.SignedOrders => b)
      ∧ (⟨⟨[5, 6], [9]⟩, 0⟩ : MintTx.SignedOrder).idx
          < (⟨⟨[5, 6], [9]⟩, 0⟩ : MintTx.SignedOrder).batch.orders_data.length)
    ∧ MintTx.push_operation (fun b => b)
        (fun n => if n = 1 then some ⟨⟨[5, 6], [9]⟩, 0⟩
          else if n = 2 then some ⟨⟨[5, 6], [9]⟩, 1⟩ else none) [] 1
      = .ok [(⟨[5, 6], [9]⟩, ⟨⟨[5, 6], [9]⟩, [(1, 0)]⟩)]
    ∧ MintTx.push_operation (fun b => b)
        (fun n => if n = 1 then some ⟨⟨[5, 6], [9]⟩, 0⟩
          else if n = 2 then some ⟨⟨[5, 6], [9]⟩, 1⟩ else none)
        [(⟨[5, 6], [9]⟩, ⟨⟨[5, 6], [9]⟩, [(1, 0)]⟩)] 2
      = .ok [(⟨[5, 6], [9]⟩, ⟨⟨[5, 6], [9]⟩, [(1, 0), (2, 1)]⟩)]
    ∧ (MintTx.run
        (⟨.ok (), .ok 9, some 8, .ok ⟨0, 1, 7⟩, .ok (1, 2, 3), .ok 99⟩
          : MintTx.RunEnv)
        [((⟨[5, 6], [9]⟩ : MintTx.SignedOrders),
          (⟨⟨[5, 6], [9]⟩, [(1, 0), (2, 1)]⟩ : MintTx.MintOrderBatchInfo))]).sent_txs.length
      = 1
    ∧ (MintTx.run
        (⟨.ok (), .ok 9, some 8, .ok ⟨0, 1, 7⟩, .ok (1, 2, 3), .ok 99⟩
          : MintTx.RunEnv)
        [((⟨[5, 6], [9]⟩ : MintTx.SignedOrders),
          (⟨⟨[5, 6], [9]⟩, [(1, 0), (2, 1)]⟩ : MintTx.MintOrderBatchInfo))]).notified
      = [(1, ⟨⟨[5, 6], [9]⟩, 0⟩, 99), (2, ⟨⟨[5, 6], [9]⟩, 1⟩, 99)] :=
  ⟨⟨by decide, fun a b hab => hab, by decide⟩,
   (c1_same_digest_one_tx_both_notified (fun b => b) (fun a b hab => hab)
      (fun n => if n = 1 then some ⟨⟨[5, 6], [9]⟩, 0⟩
        else if n = 2 then some ⟨⟨[5, 6], [9]⟩, 1⟩ else none)
      1 2 ⟨⟨[5, 6], [9]⟩, 0⟩ ⟨⟨[5, 6], [9]⟩, 1⟩
      ⟨.ok (), .ok 9, some 8, .ok ⟨0, 1, 7⟩, .ok (1, 2, 3), .ok 99⟩
      9 8 ⟨0, 1, 7⟩ (1, 2, 3) 99
      (by decide) rfl rfl (by decide) (by decide) rfl
      rfl rfl rfl rfl rfl rfl).1,
   (c1_same_digest_one_tx_both_notified (fun b => b) (fun a b hab => hab)
      (fun n => if n = 1 then some ⟨⟨[5, 6], [9]⟩, 0⟩
        else if n = 2 then some ⟨⟨[5, 6], [9]⟩, 1⟩ else none)
      1 2 ⟨⟨[5, 6], [9]⟩, 0⟩ ⟨⟨[5, 6], [9]⟩, 1⟩
      ⟨.ok (), .ok 9, some 8, .ok ⟨0, 1, 7⟩, .ok (1, 2, 3), .ok 99⟩
      9 8 ⟨0, 1, 7⟩ (1, 2, 3) 99
      (by decide) rfl rfl (by decide) (by decide) rfl
      rfl rfl rfl rfl rfl rfl).2.1,
   (c1_same_digest_one_tx_both_notified (fun b => b) (fun a b hab => hab)
      (fun n => if n = 1 then some ⟨⟨[5, 6], [9]⟩, 0⟩
        else if n = 2 then some ⟨⟨[5, 6], [9]⟩, 1⟩ else none)
      1 2 ⟨⟨[5, 6], [9]⟩, 0⟩ ⟨⟨[5, 6], [9]⟩, 1⟩
      ⟨.ok (), .ok 9, some 8, .ok ⟨0, 1, 7⟩, .ok (1, 2, 3), .ok 99⟩
      9 8 ⟨0, 1, 7⟩ (1, 2, 3) 99
      (by decide) rfl rfl (by decide) (by decide) rfl
      rfl rfl rfl rfl rfl rfl).2.2.2.1,
   (c1_same_digest_one_tx_both_notified (fun b => b) (fun a b hab => hab)
      (fun n => if n = 1 then some ⟨⟨[5, 6], [9]⟩, 0⟩
        else if n = 2 then some ⟨⟨[5, 6], [9]⟩, 1⟩ else none)
      1 2 ⟨⟨[5, 6], [9]⟩, 0⟩ ⟨⟨[5, 6], [9]⟩, 1⟩
      ⟨.ok (), .ok 9, some 8, .ok ⟨0, 1, 7⟩, .ok (1, 2, 3), .ok 99⟩
      9 8 ⟨0, 1, 7⟩ (1, 2, 3) 99
      (by decide) rfl rfl (by decide) (by decide) rfl
      rfl rfl rfl rfl rfl rfl).2.2.2.2.2⟩
